import Mathlib

/-!
Verification of the ShopifyAI question-answering pipeline and its frontend
glue. Frontend behaviour (store-connect domain normalization, dashboard
history list maintenance) is embedded from the React sources. The backend
pipeline (the FastAPI server) is not present in the sources, so its
components are modelled from the specification; each such definition is
marked `Modelled from the spec:`.
-/

namespace ShopifyAI

/-! ### Frontend: ConnectStorePage domain normalization -/

/-- Substring containment on strings, mirroring JavaScript
`String.prototype.includes` as used in `ConnectStorePage.jsx`. -/
def containsSubstr (hay needle : String) : Bool :=
  decide (needle.data <:+: hay.data)

/-- The suffix appended by the store-connect form. -/
def myshopifySuffix : String := ".myshopify.com"

/-- From `ConnectStorePage.jsx` `handleConnect`: the `shop_domain` value sent
to `POST /api/stores/connect` is the submitted domain itself when it already
contains `".myshopify.com"`, and the domain with `".myshopify.com"` appended
otherwise. -/
def normalizeDomain (d : String) : String :=
  if containsSubstr d myshopifySuffix then d else d ++ myshopifySuffix

/-! ### Frontend: DashboardPage question-history list -/

/-- From `DashboardPage` `handleAskQuestion` (line 118): after a successful
ask, the new record is prepended to the first 9 entries of the previous
history list: `[response.data, ...prev.slice(0, 9)]`. -/
def updateHistory {α : Type} (newRec : α) (prev : List α) : List α :=
  newRec :: prev.take 9

/-! ### Data model (spec §3)

Modelled from the spec: the backend server holding these records is not in
the sources; the record shapes follow spec §3 verbatim. -/

/-- Modelled from the spec: Store — identifier, domain name, display name,
connection timestamp. -/
structure Store where
  id : Nat
  shopDomain : String
  shopName : String
  connectedAt : Nat
deriving DecidableEq

/-- Modelled from the spec: Product — identifier, store reference, title,
price, inventory count, reorder threshold. -/
structure Product where
  id : Nat
  storeRef : Nat
  title : String
  price : Nat
  inventory : Nat
  reorderThreshold : Nat
deriving DecidableEq

/-- Order status labels as displayed by the dashboard. -/
inductive OrderStatus where
  | fulfilled
  | pending
  | other
deriving DecidableEq

/-- A line item of an order: product reference and quantity. -/
structure LineItem where
  productRef : Nat
  quantity : Nat
deriving DecidableEq

/-- Modelled from the spec: Order — identifier, store reference, order
number, customer reference, line items, total, status, timestamp. -/
structure Order where
  id : Nat
  storeRef : Nat
  orderNumber : Nat
  customerRef : Nat
  lineItems : List LineItem
  total : Nat
  status : OrderStatus
  timestamp : Nat
deriving DecidableEq

/-- Modelled from the spec: Customer — identifier, store reference, name,
order count, last-order timestamp. -/
structure Customer where
  id : Nat
  storeRef : Nat
  name : String
  orderCount : Nat
  lastOrderAt : Nat
deriving DecidableEq

/-- Intent: closed category describing what kind of business question was
asked (spec glossary): {inventory, sales, customers, general}. -/
inductive Intent where
  | inventory
  | sales
  | customers
  | general
deriving DecidableEq

/-- Confidence: low/medium/high label (spec glossary). -/
inductive Confidence where
  | low
  | medium
  | high
deriving DecidableEq

/-- Modelled from the spec: Question — identifier, store reference, question
text, classified intent, generated query description (kept as text here),
synthesized answer text, confidence label, creation timestamp. -/
structure Question where
  id : Nat
  storeRef : Nat
  questionText : String
  intent : Intent
  queryDescription : String
  answerText : String
  confidence : Confidence
  createdAt : Nat
deriving DecidableEq

/-- Modelled from the spec: the Mock Data Store holds generated products,
orders, customers per connected store; every record carries a store
reference. -/
structure MockDataStore where
  products : List Product
  orders : List Order
  customers : List Customer
deriving DecidableEq

/-- Read-only accessor scoped to a store identifier (spec §6: outbound to
Mock Data Store). -/
def productsFor (db : MockDataStore) (sid : Nat) : List Product :=
  db.products.filter (fun p => p.storeRef = sid)

/-- Read-only accessor scoped to a store identifier. -/
def ordersFor (db : MockDataStore) (sid : Nat) : List Order :=
  db.orders.filter (fun o => o.storeRef = sid)

/-- Read-only accessor scoped to a store identifier. -/
def customersFor (db : MockDataStore) (sid : Nat) : List Customer :=
  db.customers.filter (fun c => c.storeRef = sid)

/-- The data store with every record not belonging to store `sid` removed;
used to state cross-store non-interference. -/
def restrictDb (db : MockDataStore) (sid : Nat) : MockDataStore where
  products := db.products.filter (fun p => p.storeRef = sid)
  orders := db.orders.filter (fun o => o.storeRef = sid)
  customers := db.customers.filter (fun c => c.storeRef = sid)

/-! ### Intent Classifier (spec §4.1) -/

/-- The closed, exhaustive label set the external model is constrained to. -/
def allowedLabels : List String := ["inventory", "sales", "customers", "general"]

/-- Parse a label returned by the external model into the closed intent set;
`none` when the label is outside the set. -/
def parseIntent (s : String) : Option Intent :=
  if s = "inventory" then some .inventory
  else if s = "sales" then some .sales
  else if s = "customers" then some .customers
  else if s = "general" then some .general
  else none

/-- Modelled from the spec: the Intent Classifier delegates to an external
language-model call (here: its outcome, `none` on call error/timeout) and
maps the response to the closed intent set; an errored call or an
unparseable label falls back to the default "general" category rather than
propagating the error (spec §4.1, §7(b)). -/
def classifyIntent (resp : Option String) : Intent :=
  match resp with
  | none => .general
  | some s => (parseIntent s).getD .general

/-! ### Query Descriptor Generator (spec §4.2) -/

/-- Target entity of a query description (spec §4.2). -/
inductive Entity where
  | products
  | orders
  | customers
deriving DecidableEq

/-- Metric of a query description (spec §4.2): revenue, count, or
inventory-days. -/
inductive Metric where
  | revenue
  | count
  | inventoryDays
deriving DecidableEq

/-- Modelled from the spec: the structured-but-possibly-underspecified query
description parsed out of the external model's response; each field may be
left unspecified by the model, and a target product may be named for a
stock-projection question ("representing what data to pull"). -/
structure DraftQuery where
  entity : Option Entity
  metric : Option Metric
  windowDays : Option Nat
  targetProduct : Option Nat
deriving DecidableEq

/-- Modelled from the spec: a fully bound query description — target entity,
metric and time window all concrete, sufficient for the Answer Synthesizer
to compute a value without further interpretation; `defaultsUsed` records
whether any default was substituted (needed for the §4.3 confidence rule). -/
structure QueryDescriptor where
  entity : Entity
  metric : Metric
  windowDays : Nat
  targetProduct : Option Nat
  defaultsUsed : Bool
deriving DecidableEq

/-- Modelled from the spec: intent-derived default query used when the
external call fails (spec §4.2 failure mode, e.g. inventory intent →
low-stock projection query). -/
def intentDefaults (i : Intent) : QueryDescriptor :=
  match i with
  | .inventory => ⟨.products, .inventoryDays, 30, none, true⟩
  | .sales => ⟨.orders, .revenue, 30, none, true⟩
  | .customers => ⟨.customers, .count, 30, none, true⟩
  | .general => ⟨.orders, .revenue, 30, none, true⟩

/-- Modelled from the spec: the Query Descriptor Generator. On external-call
failure (`none`) it falls back to the intent-derived defaults; otherwise it
deterministically bounds the time window (default: last 30 days if
unspecified) and metric (default: revenue) so that the query is never empty
or partially undefined (spec §4.2). -/
def generateQuery (i : Intent) (resp : Option DraftQuery) : QueryDescriptor :=
  match resp with
  | none => intentDefaults i
  | some p =>
      { entity := p.entity.getD (intentDefaults i).entity
        metric := p.metric.getD .revenue
        windowDays := p.windowDays.getD 30
        targetProduct := p.targetProduct
        defaultsUsed := p.entity.isNone || p.metric.isNone || p.windowDays.isNone }

/-! ### Answer Synthesizer (spec §4.3) -/

/-- Orders whose timestamp falls inside the trailing window of `windowDays`
days ending at `now`. -/
def ordersInWindow (orders : List Order) (windowDays now : Nat) : List Order :=
  orders.filter (fun o => now - windowDays ≤ o.timestamp)

/-- Revenue over the trailing window: sum of order totals. -/
def revenueInWindow (orders : List Order) (windowDays now : Nat) : Nat :=
  (ordersInWindow orders windowDays now).foldr (fun o acc => o.total + acc) 0

/-- Units of product `pid` sold over the trailing window: sum of matching
line-item quantities. -/
def unitsSoldInWindow (orders : List Order) (pid windowDays now : Nat) : Nat :=
  (ordersInWindow orders windowDays now).foldr
    (fun o acc =>
      o.lineItems.foldr
        (fun li a => if li.productRef = pid then li.quantity + a else a) acc)
    0

/-- Modelled from the spec: days of stock = inventory ÷ average daily sales
velocity over the trailing window, undefined (reported as unavailable) when
velocity is zero (spec §4.3, glossary). With `unitsSold` units over
`windowDays` days the velocity is `unitsSold / windowDays` and the day count
is `inventory * windowDays / unitsSold`; zero velocity (no units sold) is
guarded to `none` rather than dividing by zero or producing an infinite day
count. -/
def daysOfStock (inventory unitsSold windowDays : Nat) : Option Nat :=
  if unitsSold = 0 then none
  else some (inventory * windowDays / unitsSold)

/-- Modelled from the spec: whether the store's order history fully covers
the requested trailing window — some order predates the window start, so the
window is entirely inside recorded history (spec §4.3: "high when the
underlying data fully covers the requested window"). -/
def dataCoversWindow (orders : List Order) (windowDays now : Nat) : Bool :=
  orders.any (fun o => o.timestamp + windowDays ≤ now)

/-- Outcome of the deterministic computation the Answer Synthesizer performs:
a value (`none` when the computation is unavailable for lack of data, spec
§7(d)), whether the data fully covers the window, and whether defaults were
substituted upstream. -/
structure Computation where
  value : Option Nat
  fullCoverage : Bool
  defaultsUsed : Bool
deriving DecidableEq

/-- Modelled from the spec: the Answer Synthesizer's deterministic
computation of the described query against the store's scoped data
(spec §4.3). Revenue and count queries total the scoped data over the
window; an inventory-days query about a target product computes its days of
stock (unavailable on zero velocity or an unknown product); an inventory
query without a target is the low-stock projection (how many products are at
or below their reorder threshold). -/
def computeQuery (qd : QueryDescriptor) (products : List Product)
    (orders : List Order) (customers : List Customer) (now : Nat) : Computation :=
  let cov := dataCoversWindow orders qd.windowDays now
  match qd.metric with
  | .revenue =>
      ⟨some (revenueInWindow orders qd.windowDays now), cov, qd.defaultsUsed⟩
  | .count =>
      match qd.entity with
      | .customers => ⟨some customers.length, cov, qd.defaultsUsed⟩
      | _ => ⟨some (ordersInWindow orders qd.windowDays now).length, cov, qd.defaultsUsed⟩
  | .inventoryDays =>
      match qd.targetProduct with
      | some pid =>
          match products.find? (fun p => p.id = pid) with
          | none => ⟨none, cov, qd.defaultsUsed⟩
          | some p =>
              ⟨daysOfStock p.inventory (unitsSoldInWindow orders pid qd.windowDays now)
                qd.windowDays, cov, qd.defaultsUsed⟩
      | none =>
          ⟨some (products.filter
            (fun p => p.inventory ≤ p.reorderThreshold)).length, cov, qd.defaultsUsed⟩

/-- Modelled from the spec: the explicit "insufficient data" phrasing used
when the computation itself could not be completed, e.g. a stock projection
for a zero-velocity product (spec §4.3, §7(d)). -/
def insufficientDataAnswer : String :=
  "No projection available: insufficient sales data for this request."

/-- Modelled from the spec: the raw computed value returned as plain text
when the final language-model phrasing call fails (spec §7(e)). -/
def fallbackAnswer (v : Nat) : String :=
  "Computed value: " ++ toString v

/-- Modelled from the spec: the Answer Synthesizer's phrasing step. When the
computation is unavailable it answers with the explicit insufficient-data
phrasing and confidence = low; when the phrasing call fails (or returns an
empty, unusable text) it returns the raw computed value as plain text with
confidence = low; otherwise the model's phrasing with confidence high when
the data fully covers the window and no defaults were substituted, medium
otherwise (spec §4.3, §7(d)(e)). -/
def synthesize (comp : Computation) (resp : Option String) : String × Confidence :=
  match comp.value with
  | none => (insufficientDataAnswer, .low)
  | some v =>
      match resp with
      | none => (fallbackAnswer v, .low)
      | some t =>
          if t = "" then (fallbackAnswer v, .low)
          else (t, if comp.fullCoverage && !comp.defaultsUsed then .high else .medium)

/-! ### The ask pipeline (spec §4, §6, §7) -/

/-- Modelled from the spec: the outcomes of the three external language-model
calls the pipeline makes (intent classification, query description, answer
phrasing); `none` models a call error or timeout at that stage. The query
response is the parsed structured description. -/
structure Oracle where
  classifyResp : Option String
  queryResp : Option DraftQuery
  synthResp : Option String

/-- Modelled from the spec: backend state — connected stores, the Mock Data
Store, and the Question History Store (newest record first, as `append`
prepends and `list` returns most recent first). -/
structure BackendState where
  stores : List Store
  db : MockDataStore
  history : List Question

/-- Whether a store identifier resolves (spec §7(a)). -/
def storeExists (stores : List Store) (sid : Nat) : Bool :=
  stores.any (fun s => s.id = sid)

/-- Modelled from the spec: the only hard, caller-visible failure of `ask` —
the store identifier does not resolve (spec §7(a)). -/
inductive AskError where
  | notFound
deriving DecidableEq

/-- The response shape of `ask(storeId, questionText)`:
`{answer, intent, confidence}` (spec §6 inbound interface). -/
structure AskResult where
  answer : String
  intent : Intent
  confidence : Confidence
deriving DecidableEq

/-- Render the bound query description as the stored "ShopifyQL" text. -/
def describeQuery (qd : QueryDescriptor) : String :=
  let e := match qd.entity with
    | .products => "products"
    | .orders => "orders"
    | .customers => "customers"
  let m := match qd.metric with
    | .revenue => "revenue"
    | .count => "count"
    | .inventoryDays => "inventory-days"
  "FROM " ++ e ++ " SHOW " ++ m ++ " SINCE -" ++ toString qd.windowDays ++ "d"

/-- Modelled from the spec: `ask(storeId, questionText)` — the single entry
point. A non-resolving store identifier fails with not-found and performs no
history write; otherwise the strictly linear pipeline runs Intent →
Query → Answer, each stage fail-softening to its default, and the full
interaction (question, intent, query description, answer, confidence) is
appended to the Question History Store (spec §4, §6, §7). The external-call
outcomes and the current time are passed explicitly. -/
def ask (st : BackendState) (o : Oracle) (sid : Nat) (q : String) (now : Nat) :
    Except AskError AskResult × BackendState :=
  if storeExists st.stores sid then
    let intent := classifyIntent o.classifyResp
    let qd := generateQuery intent o.queryResp
    let comp := computeQuery qd (productsFor st.db sid) (ordersFor st.db sid)
      (customersFor st.db sid) now
    let ac := synthesize comp o.synthResp
    let record : Question :=
      { id := st.history.length
        storeRef := sid
        questionText := q
        intent := intent
        queryDescription := describeQuery qd
        answerText := ac.1
        confidence := ac.2
        createdAt := now }
    (.ok ⟨ac.1, intent, ac.2⟩, { st with history := record :: st.history })
  else
    (.error .notFound, st)

/-- Modelled from the spec: `list(storeId, limit)` of the Question History
Store — the store's question records, most recent first, at most `limit` of
them (spec §6). -/
def listQuestions (st : BackendState) (sid limit : Nat) : List Question :=
  ((st.history.filter (fun r => r.storeRef = sid)).take limit)

/-! ### Sample data used by the witness theorems -/

/-- A connected sample store. -/
def sampleStore : Store := ⟨1, "sample.myshopify.com", "Sample Store", 0⟩

/-- A sample product with inventory but no sales. -/
def p0 : Product := ⟨10, 1, "Widget", 5, 7, 3⟩

/-- A sample data store for store 1. -/
def sampleDb : MockDataStore := ⟨[p0], [], []⟩

/-- A sample backend state with one connected store and empty history. -/
def sampleState : BackendState := ⟨[sampleStore], sampleDb, []⟩

/-- The all-failing oracle: every external call errors or times out. -/
def failOracle : Oracle := ⟨none, none, none⟩

/-- An oracle describing a stock-projection question about product 10. -/
def projOracle : Oracle :=
  ⟨some "inventory", some ⟨some .products, some .inventoryDays, some 30, some 10⟩,
    some "Here is your projection."⟩

end ShopifyAI

/-! ## Theorems -/

namespace ShopifyAI

theorem append_data (s t : String) : (s ++ t).data = s.data ++ t.data := rfl

theorem normalizeDomain_contains (d : String) :
    containsSubstr (normalizeDomain d) myshopifySuffix = true := by
  unfold normalizeDomain
  by_cases h : containsSubstr d myshopifySuffix = true
  · simp [h]
  · have hb : containsSubstr d myshopifySuffix = false := by
      simpa using h
    simp only [hb, Bool.false_eq_true, if_false]
    unfold containsSubstr
    apply decide_eq_true
    rw [append_data]
    exact (List.suffix_append d.data myshopifySuffix.data).isInfix

/-- C9: the store-connect form's domain normalization is total and
idempotent — the `shop_domain` sent to `POST /api/stores/connect` is the
submitted string `d` itself when `d` already contains `".myshopify.com"`,
and `d ++ ".myshopify.com"` otherwise; the sent domain always contains
`".myshopify.com"`, and normalizing an already-normalized domain changes
nothing. -/
theorem C9_domain_normalization_idempotent (d : String) :
    normalizeDomain d =
      (if containsSubstr d myshopifySuffix then d else d ++ myshopifySuffix) ∧
    containsSubstr (normalizeDomain d) myshopifySuffix = true ∧
    normalizeDomain (normalizeDomain d) = normalizeDomain d := by
  refine ⟨rfl, normalizeDomain_contains d, ?_⟩
  have h := normalizeDomain_contains d
  generalize normalizeDomain d = x at h ⊢
  unfold normalizeDomain
  simp [h]

/-- C10: the dashboard's question-history list never exceeds 10 entries —
the initial fetch (`limit=10`) yields at most 10 records, and the update
after each successful ask prepends the new record to the first 9 entries of
the previous list, so its length stays at most 10 and the newest record is
first. -/
theorem C10_history_list_bounded :
    (∀ (st : BackendState) (sid : Nat), (listQuestions st sid 10).length ≤ 10) ∧
    (∀ (r : Question) (prev : List Question),
      (updateHistory r prev).length ≤ 10 ∧ (updateHistory r prev).head? = some r) := by
  constructor
  · intro st sid
    exact (List.length_take_le 10 _)
  · intro r prev
    refine ⟨?_, rfl⟩
    simp only [updateHistory, List.length_cons, List.length_take]
    omega

theorem intent_cases (i : Intent) :
    i = .inventory ∨ i = .sales ∨ i = .customers ∨ i = .general := by
  cases i <;> simp

theorem confidence_cases (c : Confidence) :
    c = .low ∨ c = .medium ∨ c = .high := by
  cases c <;> simp

/-- C7: the Intent Classifier's output is always one label from the fixed
closed set {inventory, sales, customers, general}; when the external call
errors (`none`) or returns a label outside the allowed set, the classifier
returns the default "general" category instead of propagating the error. -/
theorem C7_classifier_closed_and_defaults :
    (∀ r : Option String, classifyIntent r = .inventory ∨ classifyIntent r = .sales ∨
      classifyIntent r = .customers ∨ classifyIntent r = .general) ∧
    classifyIntent none = .general ∧
    (∀ s : String, s ∉ allowedLabels → classifyIntent (some s) = .general) := by
  refine ⟨fun r => intent_cases _, rfl, ?_⟩
  intro s hs
  simp only [allowedLabels, List.mem_cons, List.not_mem_nil, or_false] at hs
  push_neg at hs
  obtain ⟨h1, h2, h3, h4⟩ := hs
  simp [classifyIntent, parseIntent, h1, h2, h3, h4]

/-- C7 witness: an out-of-set label at a concrete input maps to the default
"general" category. -/
theorem C7_witness : classifyIntent (some "weather") = .general :=
  C7_classifier_closed_and_defaults.2.2 "weather" (by decide)

/-- C8: the Query Descriptor Generator always produces a fully bound query:
an unspecified time window defaults to the last 30 days, an unspecified
metric defaults to revenue, and on external-call failure the whole
descriptor falls back to the intent-derived defaults (which are themselves
fully bound to a 30-day window). -/
theorem C8_generator_fully_bound :
    (∀ (i : Intent) (p : DraftQuery), p.windowDays = none →
      (generateQuery i (some p)).windowDays = 30) ∧
    (∀ (i : Intent) (p : DraftQuery), p.metric = none →
      (generateQuery i (some p)).metric = .revenue) ∧
    (∀ i : Intent, generateQuery i none = intentDefaults i) ∧
    (∀ i : Intent, (intentDefaults i).windowDays = 30) := by
  refine ⟨?_, ?_, fun i => rfl, fun i => by cases i <;> rfl⟩
  · intro i p h
    simp [generateQuery, h]
  · intro i p h
    simp [generateQuery, h]

/-- C8 witness: a fully unspecified model response at a concrete input is
bound to the 30-day window and revenue metric, and a failed call falls back
to the intent defaults. -/
theorem C8_witness :
    (generateQuery .sales (some ⟨none, none, none, none⟩)).windowDays = 30 ∧
    (generateQuery .sales (some ⟨none, none, none, none⟩)).metric = .revenue ∧
    generateQuery .inventory none = intentDefaults .inventory :=
  ⟨C8_generator_fully_bound.1 .sales ⟨none, none, none, none⟩ rfl,
   C8_generator_fully_bound.2.1 .sales ⟨none, none, none, none⟩ rfl,
   C8_generator_fully_bound.2.2.1 .inventory⟩

theorem insufficientDataAnswer_ne_empty : insufficientDataAnswer ≠ "" := by
  decide

theorem fallbackAnswer_ne_empty (v : Nat) : fallbackAnswer v ≠ "" := by
  intro h
  have hd := congrArg String.data h
  rw [show fallbackAnswer v = "Computed value: " ++ toString v from rfl,
    append_data] at hd
  have h0 : ("Computed value: ").data = ([] : List Char) :=
    (List.append_eq_nil.mp hd).1
  exact absurd h0 (by decide)

theorem synthesize_answer_ne_empty (comp : Computation) (resp : Option String) :
    (synthesize comp resp).1 ≠ "" := by
  unfold synthesize
  cases comp.value with
  | none => exact insufficientDataAnswer_ne_empty
  | some v =>
      cases resp with
      | none => exact fallbackAnswer_ne_empty v
      | some t =>
          by_cases h : t = ""
          · simp only [h, if_true]
            exact fallbackAnswer_ne_empty v
          · simp only [h, if_false]
            exact h

/-- The shape of a successful `ask`: the response carries exactly the
synthesized answer and confidence and the classified intent. -/
theorem ask_ok_shape (st : BackendState) (o : Oracle) (sid : Nat) (q : String)
    (now : Nat) (h : storeExists st.stores sid = true) :
    ∃ st', ask st o sid q now =
      (.ok ⟨(synthesize (computeQuery (generateQuery (classifyIntent o.classifyResp)
            o.queryResp) (productsFor st.db sid) (ordersFor st.db sid)
            (customersFor st.db sid) now) o.synthResp).1,
          classifyIntent o.classifyResp,
          (synthesize (computeQuery (generateQuery (classifyIntent o.classifyResp)
            o.queryResp) (productsFor st.db sid) (ordersFor st.db sid)
            (customersFor st.db sid) now) o.synthResp).2⟩, st') := by
  unfold ask
  rw [h]
  exact ⟨_, rfl⟩

/-- C1: for every valid store identifier and every question text (and every
outcome of the external model calls), `ask` returns an ok response with a
non-empty answer string, an intent from the closed enumerated set, and a
confidence in {low, medium, high} — never an unhandled error. -/
theorem C1_ask_total_on_valid_store (st : BackendState) (o : Oracle) (sid : Nat)
    (q : String) (now : Nat) (h : storeExists st.stores sid = true) :
    ∃ (r : AskResult) (st' : BackendState),
      ask st o sid q now = (.ok r, st') ∧
      r.answer ≠ "" ∧
      (r.intent = .inventory ∨ r.intent = .sales ∨
        r.intent = .customers ∨ r.intent = .general) ∧
      (r.confidence = .low ∨ r.confidence = .medium ∨ r.confidence = .high) := by
  obtain ⟨st', hst⟩ := ask_ok_shape st o sid q now h
  exact ⟨_, st', hst, synthesize_answer_ne_empty _ _, intent_cases _, confidence_cases _⟩

/-- C1 witness: a concrete ask against the sample store with every external
call failing still returns an ok, well-formed response. -/
theorem C1_witness :
    ∃ (r : AskResult) (st' : BackendState),
      ask sampleState failOracle 1 "any question" 40 = (.ok r, st') ∧
      r.answer ≠ "" ∧
      (r.intent = .inventory ∨ r.intent = .sales ∨
        r.intent = .customers ∨ r.intent = .general) ∧
      (r.confidence = .low ∨ r.confidence = .medium ∨ r.confidence = .high) :=
  C1_ask_total_on_valid_store sampleState failOracle 1 "any question" 40 (by decide)

/-- C2: an external language-model failure at any of the three stages never
aborts the request — for any oracle outcome, `ask` on an existing store
completes with an ok result; the classifier degrades to "general", the
generator degrades to intent-derived defaults, the synthesizer degrades to
the raw computed value with confidence low; and the only hard failure of
`ask` is a non-existent store identifier. -/
theorem C2_failures_degrade_never_abort (st : BackendState) (o : Oracle)
    (sid : Nat) (q : String) (now : Nat) :
    (storeExists st.stores sid = true →
      ∃ r st', ask st o sid q now = (.ok r, st')) ∧
    (storeExists st.stores sid = false →
      ask st o sid q now = (.error .notFound, st)) ∧
    classifyIntent none = .general ∧
    (∀ i : Intent, generateQuery i none = intentDefaults i) ∧
    (∀ (comp : Computation) (v : Nat), comp.value = some v →
      synthesize comp none = (fallbackAnswer v, .low)) := by
  refine ⟨?_, ?_, rfl, fun i => rfl, ?_⟩
  · intro h
    obtain ⟨st', hst⟩ := ask_ok_shape st o sid q now h
    exact ⟨_, st', hst⟩
  · intro h
    unfold ask
    rw [h]
    simp
  · intro comp v hv
    unfold synthesize
    rw [hv]

/-- C2 witness: at concrete inputs, the all-failing oracle still yields an
ok answer on the sample store, a non-existent store is the only hard
failure, and the synthesis fallback returns the raw value with confidence
low. -/
theorem C2_witness :
    (∃ r st', ask sampleState failOracle 1 "q" 40 = (.ok r, st')) ∧
    ask sampleState failOracle 99 "q" 40 = (.error .notFound, sampleState) ∧
    synthesize ⟨some 7, true, false⟩ none = (fallbackAnswer 7, .low) :=
  ⟨(C2_failures_degrade_never_abort sampleState failOracle 1 "q" 40).1 (by decide),
   (C2_failures_degrade_never_abort sampleState failOracle 99 "q" 40).2.1 (by decide),
   (C2_failures_degrade_never_abort sampleState failOracle 99 "q" 40).2.2.2.2
     ⟨some 7, true, false⟩ 7 rfl⟩

/-- A non-resolving store identifier fails not-found with the state
untouched. -/
theorem ask_notfound (st : BackendState) (o : Oracle) (sid : Nat) (q : String)
    (now : Nat) (h : storeExists st.stores sid = false) :
    ask st o sid q now = (.error .notFound, st) := by
  unfold ask
  rw [h]
  simp

/-- C3: for a non-resolving store identifier, `ask` fails with the not-found
condition and leaves the backend state — in particular the Question History
Store — unchanged. -/
theorem C3_notfound_no_history_write (st : BackendState) (o : Oracle)
    (sid : Nat) (q : String) (now : Nat)
    (h : storeExists st.stores sid = false) :
    ask st o sid q now = (.error .notFound, st) ∧
    (ask st o sid q now).2.history = st.history :=
  ⟨ask_notfound st o sid q now h, by rw [ask_notfound st o sid q now h]⟩

/-- C3 witness: a concrete invalid store identifier fails not-found and the
history is untouched. -/
theorem C3_witness :
    ask sampleState projOracle 99 "q" 40 = (.error .notFound, sampleState) ∧
    (ask sampleState projOracle 99 "q" 40).2.history = sampleState.history :=
  C3_notfound_no_history_write sampleState projOracle 99 "q" 40 (by decide)

/-- C4: asking a stock-projection question about a product whose sales
velocity over the trailing window is zero yields confidence = low and the
explicit no-projection answer; and the days-of-stock computation is guarded
so that zero velocity yields "unavailable" (`none`), never a
division-by-zero or an infinite day count. -/
theorem C4_zero_velocity_no_projection (st : BackendState) (o : Oracle)
    (sid pid : Nat) (q : String) (now : Nat) (p : Product)
    (hstore : storeExists st.stores sid = true)
    (hm : (generateQuery (classifyIntent o.classifyResp) o.queryResp).metric =
      .inventoryDays)
    (ht : (generateQuery (classifyIntent o.classifyResp) o.queryResp).targetProduct =
      some pid)
    (hf : (productsFor st.db sid).find? (fun x => x.id = pid) = some p)
    (hz : unitsSoldInWindow (ordersFor st.db sid) pid
        (generateQuery (classifyIntent o.classifyResp) o.queryResp).windowDays now = 0) :
    (∃ st', ask st o sid q now =
      (.ok ⟨insufficientDataAnswer, classifyIntent o.classifyResp, .low⟩, st')) ∧
    (∀ inventory windowDays : Nat, daysOfStock inventory 0 windowDays = none) := by
  constructor
  · obtain ⟨st', hst⟩ := ask_ok_shape st o sid q now hstore
    refine ⟨st', ?_⟩
    rw [hst]
    have hcomp : computeQuery (generateQuery (classifyIntent o.classifyResp) o.queryResp)
        (productsFor st.db sid) (ordersFor st.db sid) (customersFor st.db sid) now =
        ⟨none, dataCoversWindow (ordersFor st.db sid)
          (generateQuery (classifyIntent o.classifyResp) o.queryResp).windowDays now,
          (generateQuery (classifyIntent o.classifyResp) o.queryResp).defaultsUsed⟩ := by
      simp [computeQuery, hm, ht, hf, hz, daysOfStock]
    rw [hcomp]
    rfl
  · intro inventory windowDays
    simp [daysOfStock]

/-- C4 witness: a concrete store with a product that has inventory but no
sales — the stock-projection ask answers "no projection available" with
confidence low, and the guarded days-of-stock is `none` at zero velocity. -/
theorem C4_witness :
    (∃ st', ask sampleState projOracle 1 "When will Widget run out?" 40 =
      (.ok ⟨insufficientDataAnswer, classifyIntent projOracle.classifyResp, .low⟩, st')) ∧
    (∀ inventory windowDays : Nat, daysOfStock inventory 0 windowDays = none) :=
  C4_zero_velocity_no_projection sampleState projOracle 1 10
    "When will Widget run out?" 40 p0 (by decide) (by decide) (by decide)
    (by decide) (by decide)

/-- Asking never changes the set of connected stores. -/
theorem ask_stores_eq (st : BackendState) (o : Oracle) (sid : Nat) (q : String)
    (now : Nat) : (ask st o sid q now).2.stores = st.stores := by
  unfold ask
  split <;> rfl

/-- A successful `ask` appends exactly one record, carrying the asked
store's reference, question text and timestamp, at the head of the
history. -/
theorem ask_history_cons (st : BackendState) (o : Oracle) (sid : Nat)
    (q : String) (now : Nat) (h : storeExists st.stores sid = true) :
    ∃ rec : Question, rec.storeRef = sid ∧ rec.questionText = q ∧
      rec.createdAt = now ∧ (ask st o sid q now).2.history = rec :: st.history := by
  unfold ask
  rw [h]
  exact ⟨_, rfl, rfl, rfl, rfl⟩

/-- C5: after asking three questions Q1, Q2, Q3 in sequence for one store,
`list(storeId, 10)` returns their records ordered Q3, Q2, Q1 — most recent
first — ahead of whatever older records the store had. -/
theorem C5_history_most_recent_first (st : BackendState) (o1 o2 o3 : Oracle)
    (sid : Nat) (q1 q2 q3 : String) (t1 t2 t3 : Nat)
    (h : storeExists st.stores sid = true) :
    ∃ r1 r2 r3 : Question,
      r1.questionText = q1 ∧ r2.questionText = q2 ∧ r3.questionText = q3 ∧
      listQuestions
        (ask (ask (ask st o1 sid q1 t1).2 o2 sid q2 t2).2 o3 sid q3 t3).2 sid 10 =
        r3 :: r2 :: r1 :: listQuestions st sid 7 := by
  have hex1 : storeExists (ask st o1 sid q1 t1).2.stores sid = true := by
    rw [ask_stores_eq]; exact h
  have hex2 : storeExists (ask (ask st o1 sid q1 t1).2 o2 sid q2 t2).2.stores sid
      = true := by
    rw [ask_stores_eq]; exact hex1
  obtain ⟨r1, hr1sid, hr1q, _, hh1⟩ := ask_history_cons st o1 sid q1 t1 h
  obtain ⟨r2, hr2sid, hr2q, _, hh2⟩ :=
    ask_history_cons (ask st o1 sid q1 t1).2 o2 sid q2 t2 hex1
  obtain ⟨r3, hr3sid, hr3q, _, hh3⟩ :=
    ask_history_cons (ask (ask st o1 sid q1 t1).2 o2 sid q2 t2).2 o3 sid q3 t3 hex2
  refine ⟨r1, r2, r3, hr1q, hr2q, hr3q, ?_⟩
  unfold listQuestions
  rw [hh3, hh2, hh1]
  rw [List.filter_cons_of_pos, List.filter_cons_of_pos, List.filter_cons_of_pos]
  · rfl
  · simp [hr1sid]
  · simp [hr2sid]
  · simp [hr3sid]

/-- C5 witness: three concrete sequential asks against the sample store are
listed newest first. -/
theorem C5_witness :
    ∃ r1 r2 r3 : Question,
      r1.questionText = "Q1" ∧ r2.questionText = "Q2" ∧ r3.questionText = "Q3" ∧
      listQuestions
        (ask (ask (ask sampleState failOracle 1 "Q1" 41).2 failOracle 1 "Q2" 42).2
          failOracle 1 "Q3" 43).2 1 10 =
        r3 :: r2 :: r1 :: listQuestions sampleState 1 7 :=
  C5_history_most_recent_first sampleState failOracle failOracle failOracle 1
    "Q1" "Q2" "Q3" 41 42 43 (by decide)

theorem productsFor_restrict (db : MockDataStore) (sid : Nat) :
    productsFor (restrictDb db sid) sid = productsFor db sid := by
  simp [productsFor, restrictDb, List.filter_filter]

theorem ordersFor_restrict (db : MockDataStore) (sid : Nat) :
    ordersFor (restrictDb db sid) sid = ordersFor db sid := by
  simp [ordersFor, restrictDb, List.filter_filter]

theorem customersFor_restrict (db : MockDataStore) (sid : Nat) :
    customersFor (restrictDb db sid) sid = customersFor db sid := by
  simp [customersFor, restrictDb, List.filter_filter]

/-- C6: cross-store isolation — every record `list` returns for a store
carries that store's reference; an ask against store A leaves every other
store B's history unchanged; and the answer computed for store A is
unchanged when every record not belonging to A is removed from the data
store, so the Answer Synthesizer never reads another store's products,
orders or customers. -/
theorem C6_cross_store_isolation :
    (∀ (st : BackendState) (sid limit : Nat) (r : Question),
        r ∈ listQuestions st sid limit → r.storeRef = sid) ∧
    (∀ (st : BackendState) (o : Oracle) (A B : Nat) (q : String) (now limit : Nat),
        A ≠ B →
        listQuestions (ask st o A q now).2 B limit = listQuestions st B limit) ∧
    (∀ (stores : List Store) (db : MockDataStore) (hist : List Question)
        (o : Oracle) (A : Nat) (q : String) (now : Nat),
        (ask ⟨stores, restrictDb db A, hist⟩ o A q now).1 =
          (ask ⟨stores, db, hist⟩ o A q now).1) := by
  refine ⟨?_, ?_, ?_⟩
  · intro st sid limit r hr
    have hr' : r ∈ st.history.filter (fun x => x.storeRef = sid) :=
      List.take_subset _ _ hr
    simpa using List.of_mem_filter hr'
  · intro st o A B q now limit hAB
    by_cases h : storeExists st.stores A = true
    · obtain ⟨rec, hsid, _, _, hh⟩ := ask_history_cons st o A q now h
      unfold listQuestions
      rw [hh, List.filter_cons_of_neg]
      simp [hsid, hAB]
    · have hfalse : storeExists st.stores A = false := by
        simpa using h
      rw [ask_notfound st o A q now hfalse]
  · intro stores db hist o A q now
    unfold ask
    by_cases h : storeExists stores A = true
    · simp [h, productsFor_restrict, ordersFor_restrict, customersFor_restrict]
    · simp [h]

/-- C6 witness: at concrete distinct stores, an ask against store 1 leaves
store 2's history list unchanged. -/
theorem C6_witness :
    listQuestions (ask sampleState projOracle 1 "q" 40).2 2 10 =
      listQuestions sampleState 2 10 :=
  C6_cross_store_isolation.2.1 sampleState projOracle 1 2 "q" 40 10 (by decide)

end ShopifyAI
